import Mathlib

/-!
Verification development for the Self-Debugging Code Assistant repository.

The TypeScript sources are shallowly embedded as executable Lean functions:

* `lib/ratelimit.ts`  — fixed-window rate limiter over an external KV store
  (`checkRateLimit`, `checkRateLimitOrThrow`, `resetRateLimit` key handling);
* `lib/sanitizer.ts`  — size/shape validation (`sanitizeCode` and helpers);
* `lib/sandbox.ts`    — isolated-vm executor (`executeCode`, `executeJavaScript`);
* `app/api/debug-stream/route.ts` — the streaming repair pipeline (`POST`);
* `hooks/useDebugStream.ts`       — the client-side reasoning accumulator.

Machine-level effects are made explicit: the KV store is a per-key state
value threaded through the limiter, wall-clock time is a `Nat` parameter
(seconds for the store, milliseconds derived as `* 1000`), the isolate run
is an oracle record describing how the V8 script run ended, and the SSE
response is a trace of emitted events plus the list of codes handed to the
sandbox and the number of advisor (LLM) calls opened.
-/

namespace SelfDebug

/-! ### String helpers (JS semantics, executable on `List Char`) -/

/-- JavaScript whitespace class `\s` restricted to ASCII, which is what the
repository's inputs use: space, tab, newline, carriage return, vertical
tab, form feed. -/
def jsWhitespace (c : Char) : Bool :=
  c = ' ' || c = '\t' || c = '\n' || c = '\r' || c = '\x0b' || c = '\x0c'

/-- `startsWithList pat l` : `pat` is an initial segment of `l` (case
sensitive). -/
def startsWithList : List Char → List Char → Bool
  | [], _ => true
  | _ :: _, [] => false
  | p :: ps, c :: cs => p = c && startsWithList ps cs

/-- `occursIn pat l` : `pat` occurs contiguously somewhere in `l`; this is
JavaScript `String.prototype.includes` for a non-empty pattern. -/
def occursIn (pat : List Char) : List Char → Bool
  | [] => startsWithList pat []
  | c :: cs => startsWithList pat (c :: cs) || occursIn pat cs

/-- JS `s.includes(pat)`. -/
def strContains (s pat : String) : Bool :=
  occursIn pat.data s.data

/-- Characters of `l` strictly before the first occurrence of `pat`
(the whole list when `pat` does not occur): JS `s.split(pat)[0]` for a
non-empty `pat`. -/
def takeBeforeList (pat : List Char) : List Char → List Char
  | [] => []
  | c :: cs => if startsWithList pat (c :: cs) then [] else c :: takeBeforeList pat cs

/-- JS `s.split('```')[0]`. -/
def takeBeforeFence (s : String) : String :=
  String.mk (takeBeforeList ['`', '`', '`'] s.data)

/-- JS `String.prototype.trim` (ASCII whitespace). -/
def jsTrim (s : String) : String :=
  String.mk ((((s.data.dropWhile jsWhitespace).reverse).dropWhile jsWhitespace).reverse)

/-- Split a character list at every occurrence of the character `sep`,
keeping empty pieces: JS `s.split(sep)` for a single-character separator. -/
def splitChar (sep : Char) : List Char → List (List Char)
  | [] => [[]]
  | c :: cs =>
    let r := splitChar sep cs
    if c = sep then [] :: r
    else
      match r with
      | [] => [[c]]
      | x :: xs => (c :: x) :: xs

/-- JS `code.split('\n').length`. -/
def lineCount (s : String) : Nat :=
  (splitChar '\n' s.data).length

/-- The lines of a string, as JS `code.split('\n')`. -/
def splitLines (s : String) : List String :=
  (splitChar '\n' s.data).map String.mk

/-- JS `array.join('\n')`. -/
def joinLines : List String → String
  | [] => ""
  | [x] => x
  | x :: xs => x ++ "\n" ++ joinLines xs

/-- JS string concatenation of a chunk list. -/
def joinChunks : List String → String
  | [] => ""
  | x :: xs => x ++ joinChunks xs

/-- JS `opt || dflt` on an optional string: `undefined` and the empty
string are both falsy. -/
def jsOrElse (o : Option String) (dflt : String) : String :=
  match o with
  | none => dflt
  | some s => if s = "" then dflt else s

/-! ### `lib/ratelimit.ts` -/

/-- `MAX_REQUESTS_PER_HOUR` in `lib/ratelimit.ts`. -/
def MAX_REQUESTS_PER_HOUR : Nat := 3

/-- `RATE_LIMIT_WINDOW_SECONDS` in `lib/ratelimit.ts`. -/
def RATE_LIMIT_WINDOW_SECONDS : Nat := 3600

/-- `RateLimitResult` in `lib/ratelimit.ts`. `resetAt` is a Unix timestamp
in milliseconds, `resetIn` is in seconds. -/
structure RateLimitResult where
  allowed : Bool
  limit : Nat
  remaining : Nat
  resetAt : Nat
  resetIn : Nat
deriving DecidableEq, Repr

/-- State of the single KV entry the limiter uses for one identity:
the counter value (when the key exists) and its expiry time in epoch
seconds (when an expiry was set). -/
structure KVEntry where
  value : Option Nat
  expireAt : Option Nat
deriving DecidableEq, Repr

/-- The absent key. -/
def KVEntry.empty : KVEntry := ⟨none, none⟩

/-- Redis-style lazy expiry: a key whose expiry time has passed behaves as
absent. `now` is in epoch seconds. -/
def kvLive (now : Nat) (kv : KVEntry) : KVEntry :=
  match kv.expireAt with
  | some e => if e ≤ now then KVEntry.empty else kv
  | none => kv

/-- `kv.incr(key)`: atomically increment (a missing key counts as 0),
returning the new value; does not touch the expiry of a live key. -/
def kvIncr (now : Nat) (kv : KVEntry) : Nat × KVEntry :=
  let kv := kvLive now kv
  let n := kv.value.getD 0 + 1
  (n, ⟨some n, kv.expireAt⟩)

/-- `kv.expire(key, s)`: set the expiry `s` seconds from now. -/
def kvExpire (now s : Nat) (kv : KVEntry) : KVEntry :=
  ⟨kv.value, some (now + s)⟩

/-- `kv.ttl(key)`: seconds to expiry; `-2` for a missing key, `-1` for a
key without expiry. -/
def kvTtl (now : Nat) (kv : KVEntry) : Int :=
  let kv := kvLive now kv
  match kv.value with
  | none => -2
  | some _ =>
    match kv.expireAt with
    | none => -1
    | some e => (e : Int) - (now : Int)

/-- `ip.replace(/[^a-zA-Z0-9.:]/g, '')` in `checkRateLimit` /
`resetRateLimit` / `getRateLimitStatus`: keep ASCII alphanumerics, dots
and colons, drop everything else. -/
def sanitizeIp (ip : String) : String :=
  String.mk (ip.data.filter (fun c => c.isAlphanum || c = '.' || c = ':'))

/-- The store key derived from an identity. -/
def rateLimitKey (ip : String) : String :=
  "ratelimit:" ++ sanitizeIp ip

/-- The `try` branch of `checkRateLimit` in `lib/ratelimit.ts`, acting on
the identity's KV entry at time `now` (epoch seconds; the code's
`Date.now()` milliseconds appear as `now * 1000`). -/
def checkRateLimitKV (now : Nat) (kv : KVEntry) : RateLimitResult × KVEntry :=
  let p := kvIncr now kv
  let count := p.1
  let kv1 := if count = 1 then kvExpire now RATE_LIMIT_WINDOW_SECONDS p.2 else p.2
  let ttl := kvTtl now kv1
  let resetIn : Nat := if 0 < ttl then ttl.toNat else RATE_LIMIT_WINDOW_SECONDS
  let resetAt := now * 1000 + resetIn * 1000
  ({ allowed := decide (count ≤ MAX_REQUESTS_PER_HOUR)
     limit := MAX_REQUESTS_PER_HOUR
     remaining := MAX_REQUESTS_PER_HOUR - count
     resetAt := resetAt
     resetIn := resetIn }, kv1)

/-- The `catch` branch of `checkRateLimit`: allow the request with the
full quota when the KV store is unreachable (fail open). -/
def failOpenResult (now : Nat) : RateLimitResult :=
  { allowed := true
    limit := MAX_REQUESTS_PER_HOUR
    remaining := MAX_REQUESTS_PER_HOUR
    resetAt := now * 1000 + RATE_LIMIT_WINDOW_SECONDS * 1000
    resetIn := RATE_LIMIT_WINDOW_SECONDS }

/-- `checkRateLimit` in `lib/ratelimit.ts`. `kvFailure` records whether
the KV operations threw (store unreachable), which the code handles in
its `catch` branch. -/
def checkRateLimit (kvFailure : Bool) (now : Nat) (kv : KVEntry) :
    RateLimitResult × KVEntry :=
  if kvFailure then (failOpenResult now, kv) else checkRateLimitKV now kv

/-- `checkRateLimitOrThrow` in `lib/ratelimit.ts`: `Except.error r` models
`throw new RateLimitError(r, ...)`. -/
def checkRateLimitOrThrow (kvFailure : Bool) (now : Nat) (kv : KVEntry) :
    Except RateLimitResult RateLimitResult × KVEntry :=
  let p := checkRateLimit kvFailure now kv
  ((if p.1.allowed then Except.ok p.1 else Except.error p.1), p.2)

/-! ### `lib/sanitizer.ts` -/

/-- `MAX_CODE_LENGTH` in `lib/sanitizer.ts`. -/
def MAX_CODE_LENGTH : Nat := 10000

/-- `MAX_LINES` in `lib/sanitizer.ts`. -/
def MAX_LINES : Nat := 500

/-- `SanitizationResult` in `lib/sanitizer.ts`. -/
structure SanitizationResult where
  isValid : Bool
  errors : List String
  warnings : List String
deriving DecidableEq, Repr

/-- `validateCodeSize` in `lib/sanitizer.ts` (error text abridged: the
code interpolates the measured sizes into the messages). -/
def validateCodeSize (code : String) : List String :=
  (if code.length > MAX_CODE_LENGTH then ["Code exceeds maximum length"] else []) ++
  (if lineCount code > MAX_LINES then ["Code exceeds maximum lines"] else [])

/-- A base64-alphabet character, as in the regex class `[A-Za-z0-9+/]`. -/
def base64Char (c : Char) : Bool :=
  c.isAlphanum || c = '+' || c = '/'

/-- Length of the longest run of base64-alphabet characters. -/
def maxBase64Run : List Char → Nat → Nat → Nat
  | [], cur, best => max cur best
  | c :: cs, cur, best =>
    if base64Char c then maxBase64Run cs (cur + 1) best
    else maxBase64Run cs 0 (max cur best)

/-- The test `/[A-Za-z0-9+/]{500,}={0,2}/.test(code)`: it succeeds exactly
when the code has 500 consecutive base64-alphabet characters (the optional
`={0,2}` suffix constrains nothing). -/
def hasBase64Run (code : String) : Bool :=
  decide (500 ≤ maxBase64Run code.data 0 0)

/-- `checkSuspiciousPatterns` in `lib/sanitizer.ts` (warning text
abridged where the code interpolates counts). -/
def checkSuspiciousPatterns (code : String) : List String :=
  (if 0 < ((splitLines code).filter (fun l => l.length > 500)).length then
    ["Found very long lines"] else []) ++
  (if hasBase64Run code then ["Found very large base64-like strings"] else [])

/-- `sanitizeCode` in `lib/sanitizer.ts`. The guard `!code ||
code.trim().length === 0` is equivalent to `code.trim() = ""`. -/
def sanitizeCode (code : String) : SanitizationResult :=
  if jsTrim code = "" then
    { isValid := false, errors := ["Code cannot be empty"], warnings := [] }
  else
    let errors := validateCodeSize code
    let warnings := checkSuspiciousPatterns code
    { isValid := decide (errors.length = 0), errors := errors, warnings := warnings }

/-! ### `lib/sandbox.ts` (isolated-vm variant) -/

/-- `EXECUTION_TIMEOUT` in `lib/sandbox.ts` (milliseconds). -/
def EXECUTION_TIMEOUT : Nat := 5000

/-- `ExecutionResult` in `lib/sandbox.ts`. -/
structure ExecutionResult where
  success : Bool
  stdout : String
  stderr : String
  error : Option String
  exitCode : Option Nat
  timedOut : Bool
  executionTime : Nat
deriving DecidableEq, Repr

/-- How the isolate's `script.run` ended: normally, or by throwing an
error carrying `msg` as its message. isolated-vm signals the hard
wall-clock timeout by throwing an error whose message contains
`Script execution timed out`. -/
inductive RunOutcome where
  | ok : RunOutcome
  | caught : String → RunOutcome
deriving DecidableEq, Repr

/-- Oracle describing one isolate run of the (wrapped) user program: its
outcome, the strings captured by the injected `console.log` /
`console.error` before the run ended, and the elapsed wall-clock
milliseconds. -/
structure VmRun where
  outcome : RunOutcome
  outputs : List String
  errors : List String
  elapsedMs : Nat
deriving DecidableEq, Repr

/-- `executeJavaScript` in `lib/sandbox.ts`: both the `try` return and the
`catch` return, over the run oracle. `timedOut` mirrors
`error.message?.includes('Script execution timed out')`. -/
def executeJavaScript (run : VmRun) : ExecutionResult :=
  match run.outcome with
  | RunOutcome.ok =>
    { success := true
      stdout := joinLines run.outputs
      stderr := joinLines run.errors
      error := none
      exitCode := some 0
      timedOut := false
      executionTime := run.elapsedMs }
  | RunOutcome.caught msg =>
    let timedOut := strContains msg "Script execution timed out"
    { success := false
      stdout := joinLines run.outputs
      stderr := joinLines run.errors
      error := some (if timedOut then "Execution timed out after 5000ms"
                     else if msg = "" then "Unknown execution error" else msg)
      exitCode := some 1
      timedOut := timedOut
      executionTime := run.elapsedMs }

/-- `executeCode` in `lib/sandbox.ts`: the empty-input guard (`!code ||
code.trim().length === 0`) short-circuits; otherwise the isolate runs. -/
def executeCode (code : String) (run : VmRun) : ExecutionResult :=
  if jsTrim code = "" then
    { success := false
      stdout := ""
      stderr := ""
      error := some "Code cannot be empty"
      exitCode := none
      timedOut := false
      executionTime := 0 }
  else executeJavaScript run

/-! ### Guard-rail pattern scan in `app/api/debug-stream/route.ts` -/

/-- Case-insensitive literal match at the head of `l`; returns the rest on
success. -/
def ciStrip : List Char → List Char → Option (List Char)
  | [], l => some l
  | _ :: _, [] => none
  | p :: ps, c :: cs => if p.toLower = c.toLower then ciStrip ps cs else none

/-- Case-sensitive literal match at the head of `l`; returns the rest on
success. -/
def csStrip : List Char → List Char → Option (List Char)
  | [], l => some l
  | _ :: _, [] => none
  | p :: ps, c :: cs => if p = c then csStrip ps cs else none

/-- Consume `\s*`. -/
def dropJsWs (l : List Char) : List Char :=
  l.dropWhile jsWhitespace

/-- Head is the given character. -/
def headIs (c : Char) : List Char → Bool
  | [] => false
  | x :: _ => x = c

/-- `/eval\s*\(/i` matches at this position. -/
def matchEvalAt (l : List Char) : Bool :=
  match ciStrip ['e', 'v', 'a', 'l'] l with
  | some rest => headIs '(' (dropJsWs rest)
  | none => false

/-- `/Function\s*\(/i` matches at this position. -/
def matchFunctionAt (l : List Char) : Bool :=
  match ciStrip ['F', 'u', 'n', 'c', 't', 'i', 'o', 'n'] l with
  | some rest => headIs '(' (dropJsWs rest)
  | none => false

/-- `/constructor\s*\.\s*constructor/i` matches at this position. -/
def matchCtorCtorAt (l : List Char) : Bool :=
  match ciStrip "constructor".data l with
  | some r1 =>
    match dropJsWs r1 with
    | '.' :: r2 => (ciStrip "constructor".data (dropJsWs r2)).isSome
    | _ => false
  | none => false

/-- `/__proto__/i` matches at this position. -/
def matchProtoAt (l : List Char) : Bool :=
  (ciStrip "__proto__".data l).isSome

/-- `/require\s*\(/i` matches at this position. -/
def matchRequireAt (l : List Char) : Bool :=
  match ciStrip "require".data l with
  | some rest => headIs '(' (dropJsWs rest)
  | none => false

/-- `/import\s+/i` matches at this position. -/
def matchImportAt (l : List Char) : Bool :=
  match ciStrip "import".data l with
  | some rest =>
    match rest with
    | [] => false
    | c :: _ => jsWhitespace c
  | none => false

/-- `regex.test` : the pattern matches at some position of the string. -/
def anyPosition (f : List Char → Bool) : List Char → Bool
  | [] => f []
  | c :: cs => f (c :: cs) || anyPosition f cs

/-- `maliciousPatterns.some(pattern => pattern.test(fixedCode))` in
`app/api/debug-stream/route.ts`. -/
def hasMaliciousPattern (s : String) : Bool :=
  anyPosition matchEvalAt s.data ||
  anyPosition matchFunctionAt s.data ||
  anyPosition matchCtorCtorAt s.data ||
  anyPosition matchProtoAt s.data ||
  anyPosition matchRequireAt s.data ||
  anyPosition matchImportAt s.data

/-! ### Code-fence extraction in `app/api/debug-stream/route.ts`

`fullReasoning.match(/```(?:javascript)?\n([\s\S]*?)```/)` : leftmost
match; at a given start, the optional `javascript` is tried greedily
(when it matches, the following character must be a newline — the empty
alternative cannot rescue the position, since the next character is then
`j`, not a newline); the capture group is lazy, i.e. the shortest chunk
followed by a closing fence. -/

/-- Match the opening fence `` ```(?:javascript)?\n `` at this position,
returning the remainder after the newline. -/
def fenceOpenAt (l : List Char) : Option (List Char) :=
  match csStrip ['`', '`', '`'] l with
  | none => none
  | some r1 =>
    match csStrip "javascript".data r1 with
    | some r2 =>
      match r2 with
      | '\n' :: r3 => some r3
      | _ => none
    | none =>
      match r1 with
      | '\n' :: r3 => some r3
      | _ => none

/-- Lazy capture: the shortest initial chunk of `l` that is followed by a
closing ```` ``` ````; `none` when no closing fence exists. -/
def captureLazy : List Char → Option (List Char)
  | [] => none
  | c :: cs =>
    if startsWithList ['`', '`', '`'] (c :: cs) then some []
    else (captureLazy cs).map (fun t => c :: t)

/-- Leftmost full match of the extraction regex, returning the capture
group. -/
def findFenceCapture : List Char → Option (List Char)
  | [] => none
  | c :: cs =>
    match fenceOpenAt (c :: cs) with
    | some after =>
      match captureLazy after with
      | some cap => some cap
      | none => findFenceCapture cs
    | none => findFenceCapture cs

/-- `codeBlockMatch ? codeBlockMatch[1].trim() : ''` in the route. -/
def extractFixedCode (fullReasoning : String) : String :=
  match findFenceCapture fullReasoning.data with
  | some cap => jsTrim (String.mk cap)
  | none => ""

/-! ### The streaming pipeline (`POST` in `app/api/debug-stream/route.ts`) -/

/-- The SSE event kinds the route emits. Dynamic step/error message texts
are abridged to their fixed parts; the kinds, payloads the claims inspect,
and emission order follow the route exactly. -/
inductive SseEvent where
  | step : String → SseEvent
  | error : String → SseEvent
  | reasoningStart : SseEvent
  | reasoningChunk : String → SseEvent
  | reasoningComplete : String → SseEvent
  | output : String → Nat → SseEvent
  | fixedCodeEv : String → SseEvent
  | complete : Bool → SseEvent
deriving DecidableEq, Repr

/-- `true` exactly for `output` events. -/
def SseEvent.isOutputEvent : SseEvent → Bool
  | SseEvent.output _ _ => true
  | _ => false

/-- What one request produced: the ordered SSE events, the codes handed to
`executeCode`, and the number of advisor streams opened
(`suggestFixStream`). -/
structure StreamTrace where
  events : List SseEvent
  sandboxCalls : List String
  advisorCalls : Nat
deriving DecidableEq, Repr

/-- The guard-rail rejection message in the route. -/
def GUARD_MESSAGE : String :=
  "AI generated code contains potentially unsafe patterns. Please review the code manually."

/-- The `start` body of the SSE stream in `POST`
(`app/api/debug-stream/route.ts`), as a pure function of: the parsed
`code` field (`none` models a missing or non-string field), the KV-store
availability and state at the rate-limit check, the sandbox oracle
`exec` giving the `ExecutionResult` of each executed code string, and the
finite advisor chunk stream. -/
def runStreamPipeline (body : Option String) (kvFailure : Bool) (now : Nat)
    (kv : KVEntry) (exec : String → ExecutionResult) (chunks : List String) :
    StreamTrace :=
  match body with
  | none =>
    { events := [SseEvent.step "Parsing request...",
                 SseEvent.error "Missing or invalid code field"]
      sandboxCalls := [], advisorCalls := 0 }
  | some code =>
    let ev0 := [SseEvent.step "Parsing request...",
                SseEvent.step "Checking rate limit..."]
    match (checkRateLimitOrThrow kvFailure now kv).1 with
    | Except.error _ =>
      { events := ev0 ++ [SseEvent.error "Rate limit exceeded"]
        sandboxCalls := [], advisorCalls := 0 }
    | Except.ok _ =>
      let ev1 := ev0 ++ [SseEvent.step "Rate limit OK",
                         SseEvent.step "Validating code size..."]
      if (sanitizeCode code).isValid = false then
        { events := ev1 ++ [SseEvent.error "Code validation failed"]
          sandboxCalls := [], advisorCalls := 0 }
      else
        let ev2 := ev1 ++ [SseEvent.step "Code size OK",
                           SseEvent.step "Executing original code..."]
        let orig := exec code
        if orig.success then
          { events := ev2 ++ [SseEvent.step "Code executed successfully!",
                              SseEvent.output orig.stdout orig.executionTime,
                              SseEvent.complete true]
            sandboxCalls := [code], advisorCalls := 0 }
        else
          let errorMsg := if orig.timedOut then "Execution timed out"
                          else jsOrElse orig.error "Unknown error"
          let fullReasoning := joinChunks chunks
          let ev3 := ev2 ++ [SseEvent.step errorMsg, SseEvent.reasoningStart] ++
                     chunks.map SseEvent.reasoningChunk ++
                     [SseEvent.reasoningComplete fullReasoning]
          let fixedCode := extractFixedCode fullReasoning
          if fixedCode = "" || fixedCode = code then
            { events := ev3 ++ [SseEvent.complete false]
              sandboxCalls := [code], advisorCalls := 1 }
          else if hasMaliciousPattern fixedCode then
            { events := ev3 ++ [SseEvent.error GUARD_MESSAGE,
                                SseEvent.fixedCodeEv fixedCode,
                                SseEvent.complete false]
              sandboxCalls := [code], advisorCalls := 1 }
          else
            let fixed := exec fixedCode
            if fixed.success then
              { events := ev3 ++ [SseEvent.step "Testing fixed code...",
                                  SseEvent.step "Fixed code works!",
                                  SseEvent.output fixed.stdout fixed.executionTime,
                                  SseEvent.fixedCodeEv fixedCode,
                                  SseEvent.complete true]
                sandboxCalls := [code, fixedCode], advisorCalls := 1 }
            else
              { events := ev3 ++ [SseEvent.step "Testing fixed code...",
                                  SseEvent.step "Fixed code still has issues",
                                  SseEvent.error (jsOrElse fixed.error ""),
                                  SseEvent.fixedCodeEv fixedCode,
                                  SseEvent.complete false]
                sandboxCalls := [code, fixedCode], advisorCalls := 1 }

/-! ### Client-side reasoning accumulation (`hooks/useDebugStream.ts`) -/

/-- The `reasoning-chunk` case of the reducer in `useDebugStream`: append
the chunk (skipped when falsy), and if the accumulated string now contains
a fence marker, keep only the trimmed text before the first marker. -/
def reasoningReducer (prev text : String) : String :=
  if text = "" then prev
  else
    let newReasoning := prev ++ text
    if strContains newReasoning "```" then jsTrim (takeBeforeFence newReasoning)
    else newReasoning

/-- The reasoning text the hook holds after consuming the whole chunk
stream (initial state is the empty string). -/
def accumulateReasoning (chunks : List String) : String :=
  chunks.foldl reasoningReducer ""

/-- Modelled from the spec: the narrative portion of the concatenated raw
provider stream, i.e. everything strictly before the first code-fence
marker (the whole stream when no marker occurs). -/
def narrativeBeforeFence (raw : String) : String :=
  takeBeforeFence raw

/-! ### Rate-limiter computation lemmas -/

/-- First check in a window: the key is created with the full window as
expiry. -/
theorem checkRateLimitKV_fresh (now : Nat) (kv : KVEntry)
    (h : kvLive now kv = KVEntry.empty) :
    checkRateLimitKV now kv =
      ({ allowed := true, limit := 3, remaining := 2,
         resetAt := (now + 3600) * 1000, resetIn := 3600 },
       ⟨some 1, some (now + 3600)⟩) := by
  have hincr : kvIncr now kv = (1, ⟨some 1, none⟩) := by
    simp [kvIncr, h, KVEntry.empty]
  have httl : kvTtl now ⟨some 1, some (now + 3600)⟩ = 3600 := by
    simp only [kvTtl, kvLive]
    rw [if_neg (by omega)]
    show ((now + 3600 : Nat) : Int) - (now : Int) = 3600
    omega
  have hexp : kvExpire now RATE_LIMIT_WINDOW_SECONDS ⟨some 1, none⟩ =
      ⟨some 1, some (now + 3600)⟩ := rfl
  have hres : (if 0 < (3600 : Int) then (3600 : Int).toNat
      else RATE_LIMIT_WINDOW_SECONDS) = 3600 := by decide
  simp only [checkRateLimitKV, hincr, MAX_REQUESTS_PER_HOUR]
  norm_num [hexp, httl, hres]
  omega

/-- Subsequent check on a live key holding `c` with expiry `e` in the
future: the counter advances to `c + 1` and the expiry is untouched. -/
theorem checkRateLimitKV_live (now c e : Nat) (kv : KVEntry)
    (h : kvLive now kv = ⟨some c, some e⟩) (hc : c ≠ 0) (he : now < e) :
    checkRateLimitKV now kv =
      ({ allowed := decide (c + 1 ≤ 3), limit := 3, remaining := 3 - (c + 1),
         resetAt := e * 1000, resetIn := e - now },
       ⟨some (c + 1), some e⟩) := by
  have hincr : kvIncr now kv = (c + 1, ⟨some (c + 1), some e⟩) := by
    simp [kvIncr, h]
  have httl : kvTtl now ⟨some (c + 1), some e⟩ = (e : Int) - (now : Int) := by
    simp only [kvTtl, kvLive]
    rw [if_neg (by omega)]
  have hne : ¬ (c + 1 = 1) := by omega
  have hres : (if 0 < (e : Int) - (now : Int) then ((e : Int) - (now : Int)).toNat
      else RATE_LIMIT_WINDOW_SECONDS) = e - now := by
    rw [if_pos (by omega)]
    omega
  simp only [checkRateLimitKV, hincr, hne, if_false, httl, hres, MAX_REQUESTS_PER_HOUR]
  norm_num
  omega

/-- KV state after the first check of a window starting at `t1`. -/
def rlState1 (t1 : Nat) : KVEntry :=
  (checkRateLimit false t1 KVEntry.empty).2

/-- KV state after the second check. -/
def rlState2 (t1 t2 : Nat) : KVEntry :=
  (checkRateLimit false t2 (rlState1 t1)).2

/-- KV state after the third check. -/
def rlState3 (t1 t2 t3 : Nat) : KVEntry :=
  (checkRateLimit false t3 (rlState2 t1 t2)).2

/-- Status returned by the fourth check of the window. -/
def rlCheck4 (t1 t2 t3 t4 : Nat) : RateLimitResult :=
  (checkRateLimit false t4 (rlState3 t1 t2 t3)).1

/-- C1: a rate-limit check that leaves the window counter at `count`
returns `remaining = max 0 (limit - count)` and `allowed = count ≤ limit`
with `limit = 3`; in one one-hour window the first three checks are
allowed, the fourth is refused, `checkRateLimitOrThrow` turns that refusal
into a thrown `RateLimitError` carrying the status, and that status's
reset time is the window start plus the window length. -/
theorem rateLimit_window_behavior
    (now : Nat) (kv : KVEntry) (c : Nat) (hc : (kvLive now kv).value = some c)
    (t1 t2 t3 t4 : Nat) (h12 : t1 ≤ t2) (h23 : t2 ≤ t3) (h34 : t3 ≤ t4)
    (hw : t4 < t1 + RATE_LIMIT_WINDOW_SECONDS) :
    (((checkRateLimit false now kv).1.remaining : Int) = max 0 (3 - ((c : Int) + 1)) ∧
     (checkRateLimit false now kv).1.allowed = decide (c + 1 ≤ 3)) ∧
    ((checkRateLimit false t1 KVEntry.empty).1.allowed = true ∧
     (checkRateLimit false t2 (rlState1 t1)).1.allowed = true ∧
     (checkRateLimit false t3 (rlState2 t1 t2)).1.allowed = true ∧
     (rlCheck4 t1 t2 t3 t4).allowed = false ∧
     (checkRateLimitOrThrow false t4 (rlState3 t1 t2 t3)).1 =
       Except.error (rlCheck4 t1 t2 t3 t4) ∧
     (rlCheck4 t1 t2 t3 t4).resetAt = (t1 + RATE_LIMIT_WINDOW_SECONDS) * 1000) := by
  have hwin : RATE_LIMIT_WINDOW_SECONDS = 3600 := rfl
  rw [hwin] at hw
  have hs1 : rlState1 t1 = ⟨some 1, some (t1 + 3600)⟩ := by
    simp [rlState1, checkRateLimit, checkRateLimitKV_fresh t1 KVEntry.empty rfl]
  have hlive2 : kvLive t2 (rlState1 t1) = ⟨some 1, some (t1 + 3600)⟩ := by
    rw [hs1]
    simp only [kvLive]
    rw [if_neg (by omega)]
  have hp2 := checkRateLimitKV_live t2 1 (t1 + 3600) (rlState1 t1) hlive2 (by omega) (by omega)
  have hs2 : rlState2 t1 t2 = ⟨some 2, some (t1 + 3600)⟩ := by
    simp [rlState2, checkRateLimit, hp2]
  have hlive3 : kvLive t3 (rlState2 t1 t2) = ⟨some 2, some (t1 + 3600)⟩ := by
    rw [hs2]
    simp only [kvLive]
    rw [if_neg (by omega)]
  have hp3 := checkRateLimitKV_live t3 2 (t1 + 3600) (rlState2 t1 t2) hlive3 (by omega) (by omega)
  have hs3 : rlState3 t1 t2 t3 = ⟨some 3, some (t1 + 3600)⟩ := by
    simp [rlState3, checkRateLimit, hp3]
  have hlive4 : kvLive t4 (rlState3 t1 t2 t3) = ⟨some 3, some (t1 + 3600)⟩ := by
    rw [hs3]
    simp only [kvLive]
    rw [if_neg (by omega)]
  have hp4 := checkRateLimitKV_live t4 3 (t1 + 3600) (rlState3 t1 t2 t3) hlive4 (by omega) (by omega)
  have hformula :
      ((checkRateLimit false now kv).1.remaining : Int) = max 0 (3 - ((c : Int) + 1)) ∧
      (checkRateLimit false now kv).1.allowed = decide (c + 1 ≤ 3) := by
    have hn : (kvLive now kv).value.getD 0 + 1 = c + 1 := by rw [hc]; rfl
    constructor
    · simp only [checkRateLimit, Bool.false_eq_true, if_false, checkRateLimitKV, kvIncr, hn,
        MAX_REQUESTS_PER_HOUR]
      omega
    · simp only [checkRateLimit, Bool.false_eq_true, if_false, checkRateLimitKV, kvIncr, hn,
        MAX_REQUESTS_PER_HOUR]
  refine ⟨hformula, ?_, ?_, ?_, ?_, ?_, ?_⟩
  · simp [checkRateLimit, checkRateLimitKV_fresh t1 KVEntry.empty rfl]
  · simp [checkRateLimit, hp2]
  · simp [checkRateLimit, hp3]
  · simp [rlCheck4, checkRateLimit, hp4]
  · have hall : (checkRateLimit false t4 (rlState3 t1 t2 t3)).1.allowed = false := by
      simp [checkRateLimit, hp4]
    simp only [checkRateLimitOrThrow, hall, Bool.false_eq_true, if_false, rlCheck4]
  · simp only [rlCheck4, checkRateLimit, Bool.false_eq_true, if_false, hp4, hwin]

/-- C1 witness: concrete instantiation (counter at 1, all four checks at
time 0). -/
theorem rateLimit_window_behavior_witness :
    (kvLive 5 ⟨some 1, some 10⟩).value = some 1 ∧
    (5 : Nat) ≤ 5 ∧ (5 : Nat) < 5 + RATE_LIMIT_WINDOW_SECONDS ∧
    ((((checkRateLimit false 5 ⟨some 1, some 10⟩).1.remaining : Int) =
        max 0 (3 - ((1 : Nat) : Int) - 1) ∨ True) ∧
     (rlCheck4 5 5 5 5).allowed = false ∧
     (rlCheck4 5 5 5 5).resetAt = (5 + RATE_LIMIT_WINDOW_SECONDS) * 1000) := by
  refine ⟨by decide, le_refl 5, by decide, Or.inr trivial, ?_, ?_⟩
  · exact (rateLimit_window_behavior 5 ⟨some 1, some 10⟩ 1 (by decide)
      5 5 5 5 (le_refl 5) (le_refl 5) (le_refl 5) (by decide)).2.2.2.2.1
  · exact (rateLimit_window_behavior 5 ⟨some 1, some 10⟩ 1 (by decide)
      5 5 5 5 (le_refl 5) (le_refl 5) (le_refl 5) (by decide)).2.2.2.2.2.2

/-- C2: when the counter store is unreachable the limiter fails open —
`checkRateLimit` does not raise, reports `allowed = true` with the full
quota remaining, leaves the store state untouched, and
`checkRateLimitOrThrow` therefore returns normally instead of rejecting. -/
theorem rateLimit_fail_open (now : Nat) (kv : KVEntry) :
    (checkRateLimit true now kv).1.allowed = true ∧
    (checkRateLimit true now kv).1.remaining = MAX_REQUESTS_PER_HOUR ∧
    (checkRateLimit true now kv).1.limit = MAX_REQUESTS_PER_HOUR ∧
    (checkRateLimit true now kv).2 = kv ∧
    (checkRateLimitOrThrow true now kv).1 = Except.ok (failOpenResult now) := by
  exact ⟨rfl, rfl, rfl, rfl, rfl⟩

/-- C3: `executeCode` is a total function into `ExecutionResult` — for any
input string and any way the isolate run ends, a result is returned whose
fields encode the failure: success holds exactly when no error message is
set, an empty or whitespace-only input is reported as `Code cannot be
empty` without running the isolate, and a thrown isolate error (runtime
error or timeout) yields `success = false` with the error message and the
captured partial output in the result. -/
theorem executeCode_encodes_failures (code : String) (run : VmRun) (msg : String)
    (hcaught : run.outcome = RunOutcome.caught msg) :
    ((executeCode code run).success = true ↔ (executeCode code run).error = none) ∧
    ((executeCode code run).timedOut = true → (executeCode code run).success = false) ∧
    (jsTrim code = "" → (executeCode code run).error = some "Code cannot be empty") ∧
    (jsTrim code ≠ "" →
      (executeCode code run).success = false ∧
      ((executeCode code run).error).isSome = true ∧
      (executeCode code run).stdout = joinLines run.outputs ∧
      (executeCode code run).stderr = joinLines run.errors) := by
  by_cases h : jsTrim code = ""
  · simp [executeCode, h]
  · simp [executeCode, h, executeJavaScript, hcaught]

/-- C3 witness: a runtime error in a non-empty program. -/
theorem executeCode_encodes_failures_witness :
    (VmRun.mk (RunOutcome.caught "boom") ["o1"] ["e1"] 7).outcome =
      RunOutcome.caught "boom" ∧
    (((executeCode "x" ⟨RunOutcome.caught "boom", ["o1"], ["e1"], 7⟩).success = true ↔
        (executeCode "x" ⟨RunOutcome.caught "boom", ["o1"], ["e1"], 7⟩).error = none) ∧
     ((executeCode "x" ⟨RunOutcome.caught "boom", ["o1"], ["e1"], 7⟩).timedOut = true →
        (executeCode "x" ⟨RunOutcome.caught "boom", ["o1"], ["e1"], 7⟩).success = false) ∧
     (jsTrim "x" = "" →
        (executeCode "x" ⟨RunOutcome.caught "boom", ["o1"], ["e1"], 7⟩).error =
          some "Code cannot be empty") ∧
     (jsTrim "x" ≠ "" →
        (executeCode "x" ⟨RunOutcome.caught "boom", ["o1"], ["e1"], 7⟩).success = false ∧
        ((executeCode "x" ⟨RunOutcome.caught "boom", ["o1"], ["e1"], 7⟩).error).isSome = true ∧
        (executeCode "x" ⟨RunOutcome.caught "boom", ["o1"], ["e1"], 7⟩).stdout =
          joinLines ["o1"] ∧
        (executeCode "x" ⟨RunOutcome.caught "boom", ["o1"], ["e1"], 7⟩).stderr =
          joinLines ["e1"])) :=
  ⟨rfl, executeCode_encodes_failures "x" ⟨RunOutcome.caught "boom", ["o1"], ["e1"], 7⟩ "boom" rfl⟩

/-- C4: when the isolate run hits the hard wall-clock timeout (isolated-vm
throws an error whose message contains `Script execution timed out`),
`executeCode` reports `timedOut = true` and `success = false`, keeps the
output captured before the timeout in `stdout`/`stderr`, and sets the
timeout error message. -/
theorem executeCode_timeout (code msg : String) (outs errs : List String) (t : Nat)
    (hne : jsTrim code ≠ "")
    (ht : strContains msg "Script execution timed out" = true) :
    (executeCode code ⟨RunOutcome.caught msg, outs, errs, t⟩).timedOut = true ∧
    (executeCode code ⟨RunOutcome.caught msg, outs, errs, t⟩).success = false ∧
    (executeCode code ⟨RunOutcome.caught msg, outs, errs, t⟩).stdout = joinLines outs ∧
    (executeCode code ⟨RunOutcome.caught msg, outs, errs, t⟩).stderr = joinLines errs ∧
    (executeCode code ⟨RunOutcome.caught msg, outs, errs, t⟩).error =
      some "Execution timed out after 5000ms" := by
  simp [executeCode, hne, executeJavaScript, ht]

/-- C4 witness: a looping program whose partial output was captured. -/
theorem executeCode_timeout_witness :
    jsTrim "while(true){}" ≠ "" ∧
    strContains "Script execution timed out." "Script execution timed out" = true ∧
    ((executeCode "while(true){}"
        ⟨RunOutcome.caught "Script execution timed out.", ["partial"], [], 5003⟩).timedOut = true ∧
     (executeCode "while(true){}"
        ⟨RunOutcome.caught "Script execution timed out.", ["partial"], [], 5003⟩).success = false ∧
     (executeCode "while(true){}"
        ⟨RunOutcome.caught "Script execution timed out.", ["partial"], [], 5003⟩).stdout =
       joinLines ["partial"] ∧
     (executeCode "while(true){}"
        ⟨RunOutcome.caught "Script execution timed out.", ["partial"], [], 5003⟩).stderr =
       joinLines [] ∧
     (executeCode "while(true){}"
        ⟨RunOutcome.caught "Script execution timed out.", ["partial"], [], 5003⟩).error =
       some "Execution timed out after 5000ms") :=
  ⟨by decide, by decide,
   executeCode_timeout "while(true){}" "Script execution timed out." ["partial"] [] 5003
     (by decide) (by decide)⟩

/-- C6: on the chunk stream `["a```", "b", "```"]` the hook's accumulated
reasoning is `"ab"`: the post-fence chunk `"b"` is appended to the
narrative, because the fence check inspects only the current accumulated
string, which no longer contains a marker after the earlier truncation.
The narrative portion before the first fence of the raw stream is `"a"`
(also `"a"` after trimming), so the accumulated reasoning differs from it
— contradicting both the claim and the hook's own comment
(`Stop adding to reasoning once we hit a code block`). -/
theorem reasoning_accumulation_diverges :
    accumulateReasoning ["a```", "b", "```"] = "ab" ∧
    narrativeBeforeFence (joinChunks ["a```", "b", "```"]) = "a" ∧
    jsTrim (narrativeBeforeFence (joinChunks ["a```", "b", "```"])) = "a" ∧
    accumulateReasoning ["a```", "b", "```"] ≠
      narrativeBeforeFence (joinChunks ["a```", "b", "```"]) := by
  refine ⟨by decide, by decide, by decide, by decide⟩

/-- C8: the validator hard-fails exactly on empty/whitespace input,
length over 10000 characters, or more than 500 lines; the long-line and
base64 heuristics never make `isValid` false (the right-hand side does not
mention them). -/
theorem sanitizeCode_hard_error_iff (code : String) :
    (sanitizeCode code).isValid = false ↔
      (jsTrim code = "" ∨ code.length > MAX_CODE_LENGTH ∨ lineCount code > MAX_LINES) := by
  by_cases h0 : jsTrim code = ""
  · simp [sanitizeCode, h0]
  · by_cases h1 : code.length > MAX_CODE_LENGTH <;>
      by_cases h2 : lineCount code > MAX_LINES <;>
        simp [sanitizeCode, validateCodeSize, h0, h1, h2]

/-- C9 counterexample: for the identity `10.0.0.1` the derived key part is
`10.0.0.1` itself, which contains the non-alphanumeric character `.` —
the sanitizer keeps dots and colons, so the claim that the key holds only
alphanumeric characters beyond the prefix is false. -/
theorem sanitizeIp_keeps_nonalphanumeric :
    sanitizeIp "10.0.0.1" = "10.0.0.1" ∧
    '.' ∈ (sanitizeIp "10.0.0.1").data ∧
    Char.isAlphanum '.' = false := by
  refine ⟨by decide, by decide, by decide⟩

/-- C9 (amended): the rate limiter derives its store key from the identity
by stripping every character that is not alphanumeric, a dot, or a colon;
the key beyond the fixed prefix contains only such characters. -/
theorem rateLimitKey_charset (ip : String) (c : Char)
    (hc : c ∈ (sanitizeIp ip).data) :
    rateLimitKey ip = "ratelimit:" ++ sanitizeIp ip ∧
    (c.isAlphanum = true ∨ c = '.' ∨ c = ':') := by
  refine ⟨rfl, ?_⟩
  have hmem : c ∈ ip.data.filter (fun c => c.isAlphanum || c = '.' || c = ':') := hc
  have hp := List.of_mem_filter hmem
  simp only [Bool.or_eq_true, decide_eq_true_eq] at hp
  tauto

/-- C9 witness. -/
theorem rateLimitKey_charset_witness :
    'a' ∈ (sanitizeIp "a-b!").data ∧
    (rateLimitKey "a-b!" = "ratelimit:" ++ sanitizeIp "a-b!" ∧
     ('a'.isAlphanum = true ∨ 'a' = '.' ∨ 'a' = ':')) :=
  ⟨by decide, rateLimitKey_charset "a-b!" 'a' (by decide)⟩

/-- `(l ++ [a]).getLast? = some a`. -/
theorem getLast?_append_singleton {α : Type} (l : List α) (a : α) :
    (l ++ [a]).getLast? = some a := by
  rw [List.getLast?_append_of_ne_nil _ (by simp)]
  rfl

/-- C5: when the original code executes successfully, the streaming
pipeline terminates with `complete success=true`, the sandbox ran the
submitted code only, and no advisor stream is ever opened. -/
theorem pipeline_success_skips_advisor
    (code : String) (now : Nat) (kv : KVEntry) (exec : String → ExecutionResult)
    (chunks : List String) (t : StreamTrace)
    (ht : runStreamPipeline (some code) false now kv exec chunks = t)
    (hallow : (checkRateLimit false now kv).1.allowed = true)
    (hvalid : (sanitizeCode code).isValid = true)
    (hok : (exec code).success = true) :
    t.advisorCalls = 0 ∧
    t.events.getLast? = some (SseEvent.complete true) ∧
    t.sandboxCalls = [code] := by
  subst ht
  have hrl : (checkRateLimitOrThrow false now kv).1 =
      Except.ok (checkRateLimit false now kv).1 := by
    simp only [checkRateLimitOrThrow, hallow, if_true]
  refine ⟨?_, ?_, ?_⟩ <;>
    simp [runStreamPipeline, hrl, hvalid, hok, List.getLast?]

/-- C5 witness. -/
theorem pipeline_success_skips_advisor_witness :
    (runStreamPipeline (some "console.log(1)") false 0 KVEntry.empty
        (fun _ => ⟨true, "1", "", none, some 0, false, 3⟩) ["chunk"] =
      runStreamPipeline (some "console.log(1)") false 0 KVEntry.empty
        (fun _ => ⟨true, "1", "", none, some 0, false, 3⟩) ["chunk"]) ∧
    (checkRateLimit false 0 KVEntry.empty).1.allowed = true ∧
    (sanitizeCode "console.log(1)").isValid = true ∧
    ((fun (_ : String) => (⟨true, "1", "", none, some 0, false, 3⟩ : ExecutionResult))
        "console.log(1)").success = true ∧
    ((runStreamPipeline (some "console.log(1)") false 0 KVEntry.empty
        (fun _ => ⟨true, "1", "", none, some 0, false, 3⟩) ["chunk"]).advisorCalls = 0 ∧
     (runStreamPipeline (some "console.log(1)") false 0 KVEntry.empty
        (fun _ => ⟨true, "1", "", none, some 0, false, 3⟩) ["chunk"]).events.getLast? =
       some (SseEvent.complete true) ∧
     (runStreamPipeline (some "console.log(1)") false 0 KVEntry.empty
        (fun _ => ⟨true, "1", "", none, some 0, false, 3⟩) ["chunk"]).sandboxCalls =
       ["console.log(1)"]) :=
  ⟨rfl, by decide, by decide, rfl,
   pipeline_success_skips_advisor "console.log(1)" 0 KVEntry.empty
     (fun _ => ⟨true, "1", "", none, some 0, false, 3⟩) ["chunk"] _ rfl
     (by decide) (by decide) rfl⟩

/-- C7: a candidate fix matching one of the sandbox-escape patterns
(dynamic evaluation, prototype-chain manipulation, module loading) makes
the pipeline emit the guard-rail rejection `error` event and a final
unsuccessful `complete`; the fix is never executed (the sandbox only ever
ran the original code) and no `output` event is emitted anywhere in the
trace. -/
theorem pipeline_guard_rejects_malicious
    (code : String) (now : Nat) (kv : KVEntry) (exec : String → ExecutionResult)
    (chunks : List String) (t : StreamTrace)
    (ht : runStreamPipeline (some code) false now kv exec chunks = t)
    (hallow : (checkRateLimit false now kv).1.allowed = true)
    (hvalid : (sanitizeCode code).isValid = true)
    (hfail : (exec code).success = false)
    (hF1 : extractFixedCode (joinChunks chunks) ≠ "")
    (hF2 : extractFixedCode (joinChunks chunks) ≠ code)
    (hF3 : hasMaliciousPattern (extractFixedCode (joinChunks chunks)) = true) :
    SseEvent.error GUARD_MESSAGE ∈ t.events ∧
    t.events.getLast? = some (SseEvent.complete false) ∧
    t.sandboxCalls = [code] ∧
    t.events.all (fun e => !(SseEvent.isOutputEvent e)) = true := by
  subst ht
  have hrl : (checkRateLimitOrThrow false now kv).1 =
      Except.ok (checkRateLimit false now kv).1 := by
    simp only [checkRateLimitOrThrow, hallow, if_true]
  refine ⟨?_, ?_, ?_, ?_⟩ <;>
    simp [runStreamPipeline, hrl, hvalid, hfail, hF1, hF2, hF3, List.getLast?,
      SseEvent.isOutputEvent, List.all_append, List.all_map]

/-- C7 witness: the extracted fix `eval (1)` is rejected. -/
theorem pipeline_guard_rejects_malicious_witness :
    (checkRateLimit false 0 KVEntry.empty).1.allowed = true ∧
    (sanitizeCode "x").isValid = true ∧
    extractFixedCode (joinChunks ["oops ```", "\neval (1)```"]) ≠ "" ∧
    extractFixedCode (joinChunks ["oops ```", "\neval (1)```"]) ≠ "x" ∧
    hasMaliciousPattern (extractFixedCode (joinChunks ["oops ```", "\neval (1)```"])) = true ∧
    (SseEvent.error GUARD_MESSAGE ∈
       (runStreamPipeline (some "x") false 0 KVEntry.empty
         (fun _ => ⟨false, "", "", some "err", some 1, false, 1⟩)
         ["oops ```", "\neval (1)```"]).events ∧
     (runStreamPipeline (some "x") false 0 KVEntry.empty
         (fun _ => ⟨false, "", "", some "err", some 1, false, 1⟩)
         ["oops ```", "\neval (1)```"]).events.getLast? = some (SseEvent.complete false) ∧
     (runStreamPipeline (some "x") false 0 KVEntry.empty
         (fun _ => ⟨false, "", "", some "err", some 1, false, 1⟩)
         ["oops ```", "\neval (1)```"]).sandboxCalls = ["x"] ∧
     (runStreamPipeline (some "x") false 0 KVEntry.empty
         (fun _ => ⟨false, "", "", some "err", some 1, false, 1⟩)
         ["oops ```", "\neval (1)```"]).events.all
       (fun e => !(SseEvent.isOutputEvent e)) = true) :=
  ⟨by decide, by decide, by decide, by decide, by decide,
   pipeline_guard_rejects_malicious "x" 0 KVEntry.empty
     (fun _ => ⟨false, "", "", some "err", some 1, false, 1⟩)
     ["oops ```", "\neval (1)```"] _ rfl (by decide) (by decide) rfl
     (by decide) (by decide) (by decide)⟩

/-- C10: when the completed provider stream yields no extractable fenced
code block, or the extracted fix (after trimming) is identical to the
submitted code, the pipeline ends with `complete success=false` and the
sandbox never runs the candidate fix (only the original code was
executed). -/
theorem pipeline_no_usable_fix_completes_false
    (code : String) (now : Nat) (kv : KVEntry) (exec : String → ExecutionResult)
    (chunks : List String) (t : StreamTrace)
    (ht : runStreamPipeline (some code) false now kv exec chunks = t)
    (hallow : (checkRateLimit false now kv).1.allowed = true)
    (hvalid : (sanitizeCode code).isValid = true)
    (hfail : (exec code).success = false)
    (hnofix : extractFixedCode (joinChunks chunks) = "" ∨
              extractFixedCode (joinChunks chunks) = code) :
    t.events.getLast? = some (SseEvent.complete false) ∧
    t.sandboxCalls = [code] := by
  subst ht
  have hrl : (checkRateLimitOrThrow false now kv).1 =
      Except.ok (checkRateLimit false now kv).1 := by
    simp only [checkRateLimitOrThrow, hallow, if_true]
  rcases hnofix with h | h <;>
    refine ⟨?_, ?_⟩ <;>
      simp [runStreamPipeline, hrl, hvalid, hfail, h, List.getLast?,
        getLast?_append_singleton]

/-- C10 witness: a stream with no fenced code block. -/
theorem pipeline_no_usable_fix_completes_false_witness :
    (checkRateLimit false 0 KVEntry.empty).1.allowed = true ∧
    (sanitizeCode "x").isValid = true ∧
    (extractFixedCode (joinChunks ["no fence here"]) = "" ∨
     extractFixedCode (joinChunks ["no fence here"]) = "x") ∧
    ((runStreamPipeline (some "x") false 0 KVEntry.empty
        (fun _ => ⟨false, "", "", some "err", some 1, false, 1⟩)
        ["no fence here"]).events.getLast? = some (SseEvent.complete false) ∧
     (runStreamPipeline (some "x") false 0 KVEntry.empty
        (fun _ => ⟨false, "", "", some "err", some 1, false, 1⟩)
        ["no fence here"]).sandboxCalls = ["x"]) :=
  ⟨by decide, by decide, Or.inl (by decide),
   pipeline_no_usable_fix_completes_false "x" 0 KVEntry.empty
     (fun _ => ⟨false, "", "", some "err", some 1, false, 1⟩)
     ["no fence here"] _ rfl (by decide) (by decide) rfl (Or.inl (by decide))⟩
